import Mathlib

/-!
# Verification of the Linux sysfs GPIO backend

Shallow embedding of `drivers/platform/linux/linux_gpio.c`.

The driver talks to the kernel only through `malloc`/`free` and the POSIX
calls `open`, `write`, `read`, `close`.  We model the environment (kernel
plus allocator) as an oracle: a list of `Resp` records consumed one per
call, each supplying that call's outcome.  Every embedded function also
emits a trace of `Ev` events recording, in order, exactly which calls it
made and with which arguments, so that ordering and byte-level claims are
statements about the trace.
-/

/-- `SUCCESS` return code.  From `error.h` (the header is not part of this
tree); the generic ok indicator, value 0 in no-OS. -/
def SUCCESS : Int := 0

/-- `FAILURE` return code.  From `error.h`; the generic failure indicator,
value -1 in no-OS. -/
def FAILURE : Int := -1

/-- `GPIO_LOW` level constant, from `gpio.h` (not in the tree). -/
def GPIO_LOW : Nat := 0

/-- `GPIO_HIGH` level constant, from `gpio.h` (not in the tree). -/
def GPIO_HIGH : Nat := 1

/-- Access mode passed to `open`.  The driver only ever uses `O_WRONLY`. -/
inductive OpenMode
  | O_WRONLY
  | O_RDONLY
  | O_RDWR
deriving DecidableEq

/-- One observable call made by the driver.  `eWrite` records the exact
bytes handed to `write` (the count is the length of the list);
`eRead fd n r` records a `read` of `n` bytes from `fd` returning `r`. -/
inductive Ev
  | eMalloc (ok : Bool)
  | eOpen (path : String) (mode : OpenMode) (ret : Int)
  | eWrite (fd : Int) (data : List Nat) (ret : Int)
  | eRead (fd : Int) (count : Nat) (ret : Int)
  | eClose (fd : Int) (ret : Int)
  | eFree
deriving DecidableEq

/-- The environment's answer to one `malloc` or system call: `ok` is the
`malloc` outcome, `ret` the return value of `open`/`write`/`read`/`close`,
and `byte` the byte a successful one-byte `read` delivers. -/
structure Resp where
  ok : Bool := true
  ret : Int := 0
  byte : Nat := 48
deriving DecidableEq

/-- Oracle state threaded through the embedding: the pending responses and
the trace of calls made so far. -/
structure SysState where
  resps : List Resp
  trace : List Ev
deriving DecidableEq

/-- Consume the next oracle response (default response when exhausted). -/
def nextResp : List Resp → Resp × List Resp
  | [] => ({}, [])
  | r :: rs => (r, rs)

/-- `malloc`: succeeds iff the oracle says so. -/
def sys_malloc (s : SysState) : Bool × SysState :=
  let (r, rest) := nextResp s.resps
  (r.ok, ⟨rest, s.trace ++ [Ev.eMalloc r.ok]⟩)

/-- `free`: always succeeds, leaves only a trace event. -/
def sys_free (s : SysState) : SysState :=
  ⟨s.resps, s.trace ++ [Ev.eFree]⟩

/-- `open(path, mode)`: the oracle supplies the returned descriptor
(negative means failure). -/
def sys_open (path : String) (mode : OpenMode) (s : SysState) : Int × SysState :=
  let (r, rest) := nextResp s.resps
  (r.ret, ⟨rest, s.trace ++ [Ev.eOpen path mode r.ret]⟩)

/-- `write(fd, buf, len)`: `data` is the exact byte sequence of length
`len` taken from `buf`; the oracle supplies the returned count. -/
def sys_write (fd : Int) (data : List Nat) (s : SysState) : Int × SysState :=
  let (r, rest) := nextResp s.resps
  (r.ret, ⟨rest, s.trace ++ [Ev.eWrite fd data r.ret]⟩)

/-- `close(fd)`: the oracle supplies the returned status. -/
def sys_close (fd : Int) (s : SysState) : Int × SysState :=
  let (r, rest) := nextResp s.resps
  (r.ret, ⟨rest, s.trace ++ [Ev.eClose fd r.ret]⟩)

/-- `read(fd, &buf, 1)`: returns the count and, when one byte was
transferred, the byte.  POSIX fills the buffer only for a positive
count; the caller of this helper decides what the buffer holds. -/
def sys_read1 (fd : Int) (s : SysState) : Int × Nat × SysState :=
  let (r, rest) := nextResp s.resps
  (r.ret, r.byte, ⟨rest, s.trace ++ [Ev.eRead fd 1 r.ret]⟩)

/-- `struct linux_gpio_desc`: the two sysfs attribute file descriptors. -/
structure linux_gpio_desc where
  direction_fd : Int
  value_fd : Int
deriving DecidableEq

/-- `struct gpio_desc` as used by this driver: the pin number and the
platform-specific part (`extra`). -/
structure gpio_desc where
  number : Nat
  extra : linux_gpio_desc
deriving DecidableEq

/-- The byte sequence `sprintf(path, "%d", n)` produces for a
non-negative `n`: the decimal ASCII digits, most significant first, no
terminator and no newline included in the written length. -/
def decBytes (n : Nat) : List Nat :=
  if n = 0 then [48] else ((Nat.digits 10 n).map (fun d => d + 48)).reverse

/-- Path of the sysfs export control file. -/
def exportPath : String := "/sys/class/gpio/export"

/-- Path of the sysfs unexport control file. -/
def unexportPath : String := "/sys/class/gpio/unexport"

/-- Path of the per-pin direction attribute, as built by `sprintf`. -/
def directionPath (n : Nat) : String :=
  "/sys/class/gpio/gpio" ++ toString n ++ "/direction"

/-- Path of the per-pin value attribute, as built by `sprintf`. -/
def valuePath (n : Nat) : String :=
  "/sys/class/gpio/gpio" ++ toString n ++ "/value"

/-- `gpio_get` (linux_gpio.c:78-145).  Returns the C return code, the
caller-visible output (`some d` iff the line `*desc = descriptor` was
executed, `none` when the out-parameter was never written), and the final
oracle state. -/
def gpio_get (number : Nat) (s : SysState) : Int × Option gpio_desc × SysState :=
  let (ok1, s) := sys_malloc s
  if ok1 = false then (FAILURE, none, s)
  else
    let (ok2, s) := sys_malloc s
    if ok2 = false then (FAILURE, none, sys_free s)
    else
      let (fd, s) := sys_open exportPath OpenMode.O_WRONLY s
      if fd < 0 then (FAILURE, none, sys_free (sys_free s))
      else
        let (ret, s) := sys_write fd (decBytes number) s
        if ret < 0 then
          let (_, s) := sys_close fd s
          (FAILURE, none, sys_free (sys_free s))
        else
          let (ret, s) := sys_close fd s
          if ret < 0 then (FAILURE, none, sys_free (sys_free s))
          else
            let (dfd, s) := sys_open (directionPath number) OpenMode.O_WRONLY s
            if dfd < 0 then (FAILURE, none, sys_free (sys_free s))
            else
              let (vfd, s) := sys_open (valuePath number) OpenMode.O_WRONLY s
              if vfd < 0 then
                let (_, s) := sys_close dfd s
                (FAILURE, none, sys_free (sys_free s))
              else
                (SUCCESS, some ⟨number, ⟨dfd, vfd⟩⟩, s)

/-- `gpio_get_optional` (linux_gpio.c:153-159): calls `gpio_get`,
discards its result, returns `SUCCESS`. -/
def gpio_get_optional (number : Nat) (s : SysState) :
    Int × Option gpio_desc × SysState :=
  let (_, out, s) := gpio_get number s
  (SUCCESS, out, s)

/-- `gpio_remove` (linux_gpio.c:166-211). -/
def gpio_remove (desc : gpio_desc) (s : SysState) : Int × SysState :=
  let (r, s) := sys_close desc.extra.direction_fd s
  if r < 0 then (FAILURE, s)
  else
    let (r, s) := sys_close desc.extra.value_fd s
    if r < 0 then (FAILURE, s)
    else
      let (fd, s) := sys_open unexportPath OpenMode.O_WRONLY s
      if fd < 0 then (FAILURE, s)
      else
        let (r, s) := sys_write fd (decBytes desc.number) s
        if r < 0 then (FAILURE, s)
        else
          let (r, s) := sys_close fd s
          if r < 0 then (FAILURE, s)
          else (SUCCESS, sys_free (sys_free s))

/-- `gpio_set_value` (linux_gpio.c:221-239).  `write(fd, "1", 2)` hands
over the two bytes `'1'`, NUL (49, 0); likewise for `"0"` (48, 0). -/
def gpio_set_value (desc : gpio_desc) (value : Nat) (s : SysState) :
    Int × SysState :=
  let (r, s) :=
    if value ≠ 0 then sys_write desc.extra.value_fd [49, 0] s
    else sys_write desc.extra.value_fd [48, 0] s
  if r < 0 then (FAILURE, s) else (SUCCESS, s)

/-- `gpio_get_value` (linux_gpio.c:249-270).  The local `char data` is
uninitialized; `junk` is its indeterminate initial content, which the
`read` overwrites only when it transfers a byte (`ret` at least 1).  The
middle component is `some v` iff `*value = v` was executed. -/
def gpio_get_value (desc : gpio_desc) (junk : Nat) (s : SysState) :
    Int × Option Nat × SysState :=
  let (r, b, s) := sys_read1 desc.extra.value_fd s
  if r < 0 then (FAILURE, none, s)
  else
    let data := if 1 ≤ r then b else junk
    if data = 48 then (SUCCESS, some GPIO_LOW, s)
    else (SUCCESS, some GPIO_HIGH, s)

/-- `gpio_direction_input` (linux_gpio.c:277-291).  `write(fd, "in", 3)`
hands over `'i'`, `'n'`, NUL (105, 110, 0). -/
def gpio_direction_input (desc : gpio_desc) (s : SysState) : Int × SysState :=
  let (r, s) := sys_write desc.extra.direction_fd [105, 110, 0] s
  if r < 0 then (FAILURE, s) else (SUCCESS, s)

/-- `gpio_direction_output` (linux_gpio.c:301-322).  `write(fd, "out", 4)`
hands over `'o'`, `'u'`, `'t'`, NUL (111, 117, 116, 0), then calls
`gpio_set_value` with the caller's value. -/
def gpio_direction_output (desc : gpio_desc) (value : Nat) (s : SysState) :
    Int × SysState :=
  let (r, s) := sys_write desc.extra.direction_fd [111, 117, 116, 0] s
  if r < 0 then (FAILURE, s)
  else
    let (r2, s) := gpio_set_value desc value s
    if r2 ≠ SUCCESS then (FAILURE, s) else (SUCCESS, s)

/-! ## Helper lemmas about the decimal byte representation -/

/-- Every byte `sprintf("%d", n)` emits is an ASCII digit (48..57); in
particular none is a newline. -/
theorem decBytes_mem {n b : Nat} (hb : b ∈ decBytes n) : 48 ≤ b ∧ b ≤ 57 := by
  unfold decBytes at hb
  by_cases h : n = 0
  · simp [h] at hb
    omega
  · simp only [h, if_false, List.mem_reverse, List.mem_map] at hb
    obtain ⟨d, hd, rfl⟩ := hb
    have := Nat.digits_lt_base (by norm_num) hd
    omega

/-- The number of bytes `sprintf("%d", n)` emits is the number of decimal
digits of `n`. -/
theorem decBytes_length (n : Nat) :
    (decBytes n).length = if n = 0 then 1 else Nat.log 10 n + 1 := by
  by_cases h : n = 0
  · simp [decBytes, h]
  · simp [decBytes, h, Nat.digits_len 10 n (by norm_num) h]

/-- Reading the emitted bytes back as decimal digits recovers `n`: the
sequence is the decimal representation of `n`. -/
theorem decBytes_decode (n : Nat) :
    Nat.ofDigits 10 ((decBytes n).reverse.map (fun b => b - 48)) = n := by
  by_cases h : n = 0
  · simp [decBytes, h, Nat.ofDigits]
  · simp only [decBytes, h, if_false, List.reverse_reverse, List.map_map]
    have heq : ((fun b => b - 48) ∘ fun d => d + 48) = fun d : Nat => d := by
      funext d
      simp
    rw [heq]
    simpa using Nat.ofDigits_digits 10 n

/-! ## Claim theorems -/

/-- C5: `gpio_set_value(h, v)` writes exactly the two bytes `"1\0"`
(49, 0) to the value slot when `v` is non-zero and exactly `"0\0"`
(48, 0) when `v` is zero, and returns `SUCCESS` iff the write returned a
non-negative count, `FAILURE` otherwise. -/
theorem spec_C5_set_value_bytes (d : gpio_desc) (v : Nat) (tr0 : List Ev)
    (r : Resp) (rest : List Resp) :
    gpio_set_value d v ⟨r :: rest, tr0⟩ =
      ((if r.ret < 0 then FAILURE else SUCCESS),
       ⟨rest, tr0 ++ [Ev.eWrite d.extra.value_fd
          (if v ≠ 0 then [49, 0] else [48, 0]) r.ret]⟩) ∧
    ((gpio_set_value d v ⟨r :: rest, tr0⟩).1 = SUCCESS ↔ 0 ≤ r.ret) := by
  have h : gpio_set_value d v ⟨r :: rest, tr0⟩ =
      ((if r.ret < 0 then FAILURE else SUCCESS),
       ⟨rest, tr0 ++ [Ev.eWrite d.extra.value_fd
          (if v ≠ 0 then [49, 0] else [48, 0]) r.ret]⟩) := by
    by_cases hv : v ≠ 0 <;>
      simp only [gpio_set_value, sys_write, nextResp, hv, if_true, if_false,
        ite_not, ne_eq, not_false_eq_true, not_true_eq_false] <;>
      split_ifs <;> rfl
  refine ⟨h, ?_⟩
  rw [h]
  by_cases hr : r.ret < 0 <;>
    · simp [hr, SUCCESS, FAILURE]
      try omega

/-- C7: `gpio_direction_input(h)` writes exactly the three bytes `"in\0"`
(105, 110, 0) to the direction slot and returns `SUCCESS` iff the write
returned a non-negative count, `FAILURE` otherwise. -/
theorem spec_C7_direction_input_bytes (d : gpio_desc) (tr0 : List Ev)
    (r : Resp) (rest : List Resp) :
    gpio_direction_input d ⟨r :: rest, tr0⟩ =
      ((if r.ret < 0 then FAILURE else SUCCESS),
       ⟨rest, tr0 ++ [Ev.eWrite d.extra.direction_fd [105, 110, 0] r.ret]⟩) ∧
    ((gpio_direction_input d ⟨r :: rest, tr0⟩).1 = SUCCESS ↔ 0 ≤ r.ret) := by
  have h : gpio_direction_input d ⟨r :: rest, tr0⟩ =
      ((if r.ret < 0 then FAILURE else SUCCESS),
       ⟨rest, tr0 ++ [Ev.eWrite d.extra.direction_fd [105, 110, 0] r.ret]⟩) := by
    simp only [gpio_direction_input, sys_write, nextResp]
    split_ifs <;> rfl
  refine ⟨h, ?_⟩
  rw [h]
  by_cases hr : r.ret < 0 <;>
    · simp [hr, SUCCESS, FAILURE]
      try omega

/-- C4: `gpio_get_value` performs exactly one `read` of one byte from the
value slot; on a negative count it returns `FAILURE` and never writes the
caller's output; on a non-negative count it returns `SUCCESS` and writes
the level decoded from the buffer byte (`GPIO_LOW` for ASCII '0' = 48,
`GPIO_HIGH` for anything else), the buffer holding the delivered byte
when one was transferred. -/
theorem spec_C4_get_value_decode (d : gpio_desc) (junk : Nat) (tr0 : List Ev)
    (r : Resp) (rest : List Resp) :
    gpio_get_value d junk ⟨r :: rest, tr0⟩ =
      (if r.ret < 0 then
        (FAILURE, none, ⟨rest, tr0 ++ [Ev.eRead d.extra.value_fd 1 r.ret]⟩)
       else
        (SUCCESS,
         some (if (if 1 ≤ r.ret then r.byte else junk) = 48
               then GPIO_LOW else GPIO_HIGH),
         ⟨rest, tr0 ++ [Ev.eRead d.extra.value_fd 1 r.ret]⟩)) := by
  by_cases hr : r.ret < 0
  · simp [gpio_get_value, sys_read1, nextResp, hr]
  · by_cases hb : (if 1 ≤ r.ret then r.byte else junk) = 48 <;>
      simp [gpio_get_value, sys_read1, nextResp, hr, hb]

/-- C10: when the one-byte `read` returns a count of zero (no byte
transferred), `gpio_get_value` still returns `SUCCESS` and writes into
the caller's output a level decoded from the uninitialized local buffer
byte `junk`, which the read never filled (the byte the oracle would have
delivered, `b`, does not appear in the result). -/
theorem spec_C10_get_value_zero_count (d : gpio_desc) (junk b : Nat)
    (tr0 : List Ev) (rest : List Resp) :
    gpio_get_value d junk ⟨{ ok := true, ret := 0, byte := b } :: rest, tr0⟩ =
      (SUCCESS, some (if junk = 48 then GPIO_LOW else GPIO_HIGH),
       ⟨rest, tr0 ++ [Ev.eRead d.extra.value_fd 1 0]⟩) := by
  by_cases hj : junk = 48 <;>
    simp [gpio_get_value, sys_read1, nextResp, hj]

/-- C9: `gpio_get_optional` invokes `gpio_get` and returns `SUCCESS` to
the caller regardless of the underlying outcome; the caller-facing handle
output and the oracle state are exactly those `gpio_get` left. -/
theorem spec_C9_get_optional_always_ok (n : Nat) (s : SysState) :
    gpio_get_optional n s =
      (SUCCESS, (gpio_get n s).2.1, (gpio_get n s).2.2) := by
  rcases h : gpio_get n s with ⟨a, out, s2⟩
  simp [gpio_get_optional, h]

/-- C6: `gpio_direction_output(h, v)` first writes exactly the four bytes
`"out\0"` (111, 117, 116, 0) to the direction slot; if that write fails
it returns `FAILURE` without invoking the value write; otherwise it
invokes `gpio_set_value` with the caller's `v` and returns `SUCCESS` iff
both steps succeeded, `FAILURE` otherwise. -/
theorem spec_C6_direction_output_sequence (d : gpio_desc) (v : Nat)
    (tr0 : List Ev) (r1 r2 : Resp) (rest : List Resp) :
    gpio_direction_output d v ⟨r1 :: r2 :: rest, tr0⟩ =
      (if r1.ret < 0 then
        (FAILURE, ⟨r2 :: rest,
          tr0 ++ [Ev.eWrite d.extra.direction_fd [111, 117, 116, 0] r1.ret]⟩)
       else
        ((if r2.ret < 0 then FAILURE else SUCCESS),
         ⟨rest,
          tr0 ++ [Ev.eWrite d.extra.direction_fd [111, 117, 116, 0] r1.ret,
                  Ev.eWrite d.extra.value_fd
                    (if v ≠ 0 then [49, 0] else [48, 0]) r2.ret]⟩)) ∧
    ((gpio_direction_output d v ⟨r1 :: r2 :: rest, tr0⟩).1 = SUCCESS ↔
      (0 ≤ r1.ret ∧ 0 ≤ r2.ret)) := by
  have h : gpio_direction_output d v ⟨r1 :: r2 :: rest, tr0⟩ =
      (if r1.ret < 0 then
        (FAILURE, ⟨r2 :: rest,
          tr0 ++ [Ev.eWrite d.extra.direction_fd [111, 117, 116, 0] r1.ret]⟩)
       else
        ((if r2.ret < 0 then FAILURE else SUCCESS),
         ⟨rest,
          tr0 ++ [Ev.eWrite d.extra.direction_fd [111, 117, 116, 0] r1.ret,
                  Ev.eWrite d.extra.value_fd
                    (if v ≠ 0 then [49, 0] else [48, 0]) r2.ret]⟩)) := by
    by_cases hr1 : r1.ret < 0 <;>
      by_cases hr2 : r2.ret < 0 <;>
      by_cases hv : v ≠ 0 <;>
      simp [gpio_direction_output, gpio_set_value, sys_write, nextResp,
        hr1, hr2, hv, SUCCESS, FAILURE]
  refine ⟨h, ?_⟩
  rw [h]
  by_cases hr1 : r1.ret < 0 <;> by_cases hr2 : r2.ret < 0 <;>
    · simp [hr1, hr2, SUCCESS, FAILURE]
      try omega

/-- C2: `gpio_remove(h)` performs, in order: close the direction slot,
close the value slot, open `/sys/class/gpio/unexport` for writing, write
the decimal ASCII pin number, close the unexport file, free the handle's
two allocations.  The first failing step returns `FAILURE` immediately
(the trace stops there, nothing is rolled back), and the handle is
deallocated (the two `free` events) only when every prior step
succeeded. -/
theorem spec_C2_release_sequence (d : gpio_desc) (tr0 : List Ev)
    (r1 r2 r3 r4 r5 : Resp) (rest : List Resp) :
    gpio_remove d ⟨[r1, r2, r3, r4, r5] ++ rest, tr0⟩ =
      (if r1.ret < 0 then
        (FAILURE, ⟨[r2, r3, r4, r5] ++ rest,
          tr0 ++ [Ev.eClose d.extra.direction_fd r1.ret]⟩)
       else if r2.ret < 0 then
        (FAILURE, ⟨[r3, r4, r5] ++ rest,
          tr0 ++ [Ev.eClose d.extra.direction_fd r1.ret,
                  Ev.eClose d.extra.value_fd r2.ret]⟩)
       else if r3.ret < 0 then
        (FAILURE, ⟨[r4, r5] ++ rest,
          tr0 ++ [Ev.eClose d.extra.direction_fd r1.ret,
                  Ev.eClose d.extra.value_fd r2.ret,
                  Ev.eOpen unexportPath OpenMode.O_WRONLY r3.ret]⟩)
       else if r4.ret < 0 then
        (FAILURE, ⟨[r5] ++ rest,
          tr0 ++ [Ev.eClose d.extra.direction_fd r1.ret,
                  Ev.eClose d.extra.value_fd r2.ret,
                  Ev.eOpen unexportPath OpenMode.O_WRONLY r3.ret,
                  Ev.eWrite r3.ret (decBytes d.number) r4.ret]⟩)
       else if r5.ret < 0 then
        (FAILURE, ⟨rest,
          tr0 ++ [Ev.eClose d.extra.direction_fd r1.ret,
                  Ev.eClose d.extra.value_fd r2.ret,
                  Ev.eOpen unexportPath OpenMode.O_WRONLY r3.ret,
                  Ev.eWrite r3.ret (decBytes d.number) r4.ret,
                  Ev.eClose r3.ret r5.ret]⟩)
       else
        (SUCCESS, ⟨rest,
          tr0 ++ [Ev.eClose d.extra.direction_fd r1.ret,
                  Ev.eClose d.extra.value_fd r2.ret,
                  Ev.eOpen unexportPath OpenMode.O_WRONLY r3.ret,
                  Ev.eWrite r3.ret (decBytes d.number) r4.ret,
                  Ev.eClose r3.ret r5.ret,
                  Ev.eFree, Ev.eFree]⟩)) := by
  by_cases h1 : r1.ret < 0 <;>
    by_cases h2 : r2.ret < 0 <;>
    by_cases h3 : r3.ret < 0 <;>
    by_cases h4 : r4.ret < 0 <;>
    by_cases h5 : r5.ret < 0 <;>
    simp [gpio_remove, sys_close, sys_open, sys_write, sys_free, nextResp,
      h1, h2, h3, h4, h5]

/-- C1: a successful `gpio_get(N)` performs, in order: write the decimal
ASCII digit bytes of `N` (exactly as many bytes as `N` has digits, every
byte an ASCII digit, hence no trailing newline) to
`/sys/class/gpio/export`; then open `/sys/class/gpio/gpio<N>/direction`
for writing and store that descriptor in the handle; then open
`/sys/class/gpio/gpio<N>/value` for writing and store that descriptor in
the handle; and only then publish the handle (the caller output becomes
`some`) and return `SUCCESS`. -/
theorem spec_C1_acquire_success_sequence (n : Nat) (tr0 : List Ev)
    (r1 r2 r3 r4 r5 r6 r7 : Resp) (rest : List Resp)
    (h1 : r1.ok = true) (h2 : r2.ok = true)
    (h3 : 0 ≤ r3.ret) (h4 : 0 ≤ r4.ret) (h5 : 0 ≤ r5.ret)
    (h6 : 0 ≤ r6.ret) (h7 : 0 ≤ r7.ret) :
    gpio_get n ⟨[r1, r2, r3, r4, r5, r6, r7] ++ rest, tr0⟩ =
      (SUCCESS, some ⟨n, ⟨r6.ret, r7.ret⟩⟩,
       ⟨rest,
        tr0 ++ [Ev.eMalloc true, Ev.eMalloc true,
                Ev.eOpen exportPath OpenMode.O_WRONLY r3.ret,
                Ev.eWrite r3.ret (decBytes n) r4.ret,
                Ev.eClose r3.ret r5.ret,
                Ev.eOpen (directionPath n) OpenMode.O_WRONLY r6.ret,
                Ev.eOpen (valuePath n) OpenMode.O_WRONLY r7.ret]⟩) ∧
    (∀ b ∈ decBytes n, 48 ≤ b ∧ b ≤ 57) ∧
    (decBytes n).length = (if n = 0 then 1 else Nat.log 10 n + 1) ∧
    Nat.ofDigits 10 ((decBytes n).reverse.map (fun b => b - 48)) = n := by
  refine ⟨?_, fun b hb => decBytes_mem hb, decBytes_length n, decBytes_decode n⟩
  have h3' : ¬r3.ret < 0 := not_lt.mpr h3
  have h4' : ¬r4.ret < 0 := not_lt.mpr h4
  have h5' : ¬r5.ret < 0 := not_lt.mpr h5
  have h6' : ¬r6.ret < 0 := not_lt.mpr h6
  have h7' : ¬r7.ret < 0 := not_lt.mpr h7
  simp [gpio_get, sys_malloc, sys_open, sys_write, sys_close, sys_free,
    nextResp, h1, h2, h3', h4', h5', h6', h7']

/-- C8: complete case analysis of `gpio_get`.  In every failing case the
return value is `FAILURE` and the caller's handle output is never written
(`none`).  If the value-attribute open fails, the direction descriptor is
closed and then both allocations are freed; if the direction open, the
export open, the export write, or the export close fails, both
allocations are freed; if the second allocation fails, the first is
freed; the handle is published only in the final all-success case. -/
theorem spec_C8_acquire_failure_unwind (n : Nat) (tr0 : List Ev)
    (r1 r2 r3 r4 r5 r6 r7 r8 : Resp) (rest : List Resp) :
    gpio_get n ⟨[r1, r2, r3, r4, r5, r6, r7, r8] ++ rest, tr0⟩ =
      (if r1.ok = false then
        (FAILURE, none, ⟨[r2, r3, r4, r5, r6, r7, r8] ++ rest,
          tr0 ++ [Ev.eMalloc false]⟩)
       else if r2.ok = false then
        (FAILURE, none, ⟨[r3, r4, r5, r6, r7, r8] ++ rest,
          tr0 ++ [Ev.eMalloc true, Ev.eMalloc false, Ev.eFree]⟩)
       else if r3.ret < 0 then
        (FAILURE, none, ⟨[r4, r5, r6, r7, r8] ++ rest,
          tr0 ++ [Ev.eMalloc true, Ev.eMalloc true,
                  Ev.eOpen exportPath OpenMode.O_WRONLY r3.ret,
                  Ev.eFree, Ev.eFree]⟩)
       else if r4.ret < 0 then
        (FAILURE, none, ⟨[r6, r7, r8] ++ rest,
          tr0 ++ [Ev.eMalloc true, Ev.eMalloc true,
                  Ev.eOpen exportPath OpenMode.O_WRONLY r3.ret,
                  Ev.eWrite r3.ret (decBytes n) r4.ret,
                  Ev.eClose r3.ret r5.ret,
                  Ev.eFree, Ev.eFree]⟩)
       else if r5.ret < 0 then
        (FAILURE, none, ⟨[r6, r7, r8] ++ rest,
          tr0 ++ [Ev.eMalloc true, Ev.eMalloc true,
                  Ev.eOpen exportPath OpenMode.O_WRONLY r3.ret,
                  Ev.eWrite r3.ret (decBytes n) r4.ret,
                  Ev.eClose r3.ret r5.ret,
                  Ev.eFree, Ev.eFree]⟩)
       else if r6.ret < 0 then
        (FAILURE, none, ⟨[r7, r8] ++ rest,
          tr0 ++ [Ev.eMalloc true, Ev.eMalloc true,
                  Ev.eOpen exportPath OpenMode.O_WRONLY r3.ret,
                  Ev.eWrite r3.ret (decBytes n) r4.ret,
                  Ev.eClose r3.ret r5.ret,
                  Ev.eOpen (directionPath n) OpenMode.O_WRONLY r6.ret,
                  Ev.eFree, Ev.eFree]⟩)
       else if r7.ret < 0 then
        (FAILURE, none, ⟨rest,
          tr0 ++ [Ev.eMalloc true, Ev.eMalloc true,
                  Ev.eOpen exportPath OpenMode.O_WRONLY r3.ret,
                  Ev.eWrite r3.ret (decBytes n) r4.ret,
                  Ev.eClose r3.ret r5.ret,
                  Ev.eOpen (directionPath n) OpenMode.O_WRONLY r6.ret,
                  Ev.eOpen (valuePath n) OpenMode.O_WRONLY r7.ret,
                  Ev.eClose r6.ret r8.ret,
                  Ev.eFree, Ev.eFree]⟩)
       else
        (SUCCESS, some ⟨n, ⟨r6.ret, r7.ret⟩⟩,
         ⟨r8 :: rest,
          tr0 ++ [Ev.eMalloc true, Ev.eMalloc true,
                  Ev.eOpen exportPath OpenMode.O_WRONLY r3.ret,
                  Ev.eWrite r3.ret (decBytes n) r4.ret,
                  Ev.eClose r3.ret r5.ret,
                  Ev.eOpen (directionPath n) OpenMode.O_WRONLY r6.ret,
                  Ev.eOpen (valuePath n) OpenMode.O_WRONLY r7.ret]⟩)) := by
  by_cases h1 : r1.ok = false <;>
    by_cases h2 : r2.ok = false <;>
    by_cases h3 : r3.ret < 0 <;>
    by_cases h4 : r4.ret < 0 <;>
    by_cases h5 : r5.ret < 0 <;>
    by_cases h6 : r6.ret < 0 <;>
    by_cases h7 : r7.ret < 0 <;>
    simp [gpio_get, sys_malloc, sys_open, sys_write, sys_close, sys_free,
      nextResp, h1, h2, h3, h4, h5, h6, h7]

/-- C3: on a successful `gpio_get(N)` the handle's stored value
descriptor is exactly the one returned by the `open` of
`/sys/class/gpio/gpio<N>/value` with access mode `O_WRONLY` (the trace
contains that write-only open event with the stored descriptor), and
every `gpio_get_value` on that handle performs its one-byte `read` on
that same stored descriptor. -/
theorem spec_C3_value_wronly_read_same_fd (n : Nat) (tr0 : List Ev)
    (r1 r2 r3 r4 r5 r6 r7 : Resp) (rest : List Resp)
    (h1 : r1.ok = true) (h2 : r2.ok = true)
    (h3 : 0 ≤ r3.ret) (h4 : 0 ≤ r4.ret) (h5 : 0 ≤ r5.ret)
    (h6 : 0 ≤ r6.ret) (h7 : 0 ≤ r7.ret) :
    ∃ d : gpio_desc,
      (gpio_get n ⟨[r1, r2, r3, r4, r5, r6, r7] ++ rest, tr0⟩).2.1 = some d ∧
      d.extra.value_fd = r7.ret ∧
      Ev.eOpen (valuePath n) OpenMode.O_WRONLY d.extra.value_fd ∈
        (gpio_get n ⟨[r1, r2, r3, r4, r5, r6, r7] ++ rest, tr0⟩).2.2.trace ∧
      ∀ (junk : Nat) (s2 : SysState),
        (gpio_get_value d junk s2).2.2.trace =
          s2.trace ++ [Ev.eRead d.extra.value_fd 1 (nextResp s2.resps).1.ret] := by
  have h3' : ¬r3.ret < 0 := not_lt.mpr h3
  have h4' : ¬r4.ret < 0 := not_lt.mpr h4
  have h5' : ¬r5.ret < 0 := not_lt.mpr h5
  have h6' : ¬r6.ret < 0 := not_lt.mpr h6
  have h7' : ¬r7.ret < 0 := not_lt.mpr h7
  refine ⟨⟨n, ⟨r6.ret, r7.ret⟩⟩, ?_, rfl, ?_, ?_⟩
  · simp [gpio_get, sys_malloc, sys_open, sys_write, sys_close, sys_free,
      nextResp, h1, h2, h3', h4', h5', h6', h7']
  · simp [gpio_get, sys_malloc, sys_open, sys_write, sys_close, sys_free,
      nextResp, h1, h2, h3', h4', h5', h6', h7']
  · intro junk s2
    by_cases hr : (nextResp s2.resps).1.ret < 0
    · simp [gpio_get_value, sys_read1, hr]
    · by_cases hb : (if 1 ≤ (nextResp s2.resps).1.ret
          then (nextResp s2.resps).1.byte else junk) = 48 <;>
        simp [gpio_get_value, sys_read1, hr, hb]

/-- Witness for C1: concrete successful run, pin 17, export fd 3, write
count 2, close 0, direction fd 4, value fd 5; the exported digit bytes
are "17" = 49, 55. -/
theorem spec_C1_acquire_success_sequence_witness :
    gpio_get 17 ⟨[{}, {}, { ret := 3 }, { ret := 2 }, {}, { ret := 4 },
        { ret := 5 }], []⟩ =
      (SUCCESS, some ⟨17, ⟨4, 5⟩⟩,
       ⟨[],
        [Ev.eMalloc true, Ev.eMalloc true,
         Ev.eOpen exportPath OpenMode.O_WRONLY 3,
         Ev.eWrite 3 [49, 55] 2,
         Ev.eClose 3 0,
         Ev.eOpen (directionPath 17) OpenMode.O_WRONLY 4,
         Ev.eOpen (valuePath 17) OpenMode.O_WRONLY 5]⟩) := by
  have h := (spec_C1_acquire_success_sequence 17 [] {} {} { ret := 3 }
    { ret := 2 } {} { ret := 4 } { ret := 5 } [] rfl rfl (by norm_num)
    (by norm_num) (by norm_num) (by norm_num) (by norm_num)).1
  have hd : decBytes 17 = [49, 55] := by simp [decBytes]
  rw [hd] at h
  simpa using h

/-- Witness for C3: the same concrete successful run; the handle stores
value descriptor 5, opened write-only at the value path, and a
`gpio_get_value` on it with an empty oracle reads from descriptor 5. -/
theorem spec_C3_value_wronly_read_same_fd_witness :
    ∃ d : gpio_desc,
      (gpio_get 17 ⟨[({} : Resp), {}, { ret := 3 }, { ret := 2 }, {},
          { ret := 4 }, { ret := 5 }] ++ [], []⟩).2.1 = some d ∧
      d.extra.value_fd = ({ ret := 5 } : Resp).ret ∧
      Ev.eOpen (valuePath 17) OpenMode.O_WRONLY d.extra.value_fd ∈
        (gpio_get 17 ⟨[({} : Resp), {}, { ret := 3 }, { ret := 2 }, {},
            { ret := 4 }, { ret := 5 }] ++ [], []⟩).2.2.trace ∧
      ∀ (junk : Nat) (s2 : SysState),
        (gpio_get_value d junk s2).2.2.trace =
          s2.trace ++ [Ev.eRead d.extra.value_fd 1 (nextResp s2.resps).1.ret] :=
  spec_C3_value_wronly_read_same_fd 17 [] {} {} { ret := 3 } { ret := 2 } {}
    { ret := 4 } { ret := 5 } [] rfl rfl (by norm_num) (by norm_num)
    (by norm_num) (by norm_num) (by norm_num)
